import Mathlib

/-!
Shallow embedding of the NodeBB group-membership API module
(`src/api/groups.ts`): the shared `isOwner` authorization gate and the
operations `create`, `update`, `delete`, `join`, `leave`, `grant`,
`rescind`.

External collaborators (privileges, user directory, group directory,
meta config, notification sink) are modelled as an `Env` of pure
functions; each operation returns the ordered list of effects it
performed (mutations, audit-log records, notification calls) together
with an `Except` result, mirroring the sequential `await` structure of
the source.  User identifiers are integers; a group name value that is
not a string (JavaScript `null` from a failed slug resolution) is
modelled as `none : Option String`.
-/

set_option autoImplicit false

namespace ApiGroups

/-- Group configuration record: the fields of `GroupDataObject` that this
module reads (`system`, `private`, `disableJoinRequests`, `disableLeave`). -/
structure GroupDataObject where
  system : Bool
  isPrivate : Bool
  disableJoinRequests : Bool
  disableLeave : Bool
deriving Repr, DecidableEq

/-- The acting caller: `{ uid, ip }`. -/
structure Caller where
  uid : Int
  ip : String
deriving Repr, DecidableEq

/-- The record handed to `groups.create` after the caller's payload has had
`ownerUid` and `system` forced by `create`. -/
structure CreateRecord where
  name : String
  ownerUid : Int
  system : Bool
deriving Repr, DecidableEq

/-- Payload of `create`: `name` is `none` when the supplied value is not a
string; `ownerUid` and `system` are the caller-supplied values that
`create` overwrites. -/
structure CreateData where
  name : Option String
  ownerUid : Int
  system : Bool
deriving Repr, DecidableEq

/-- Payload of `update`: a slug and an optional replacement name
(`none` or the empty string mean: keep the resolved name). -/
structure UpdateData where
  slug : String
  name : Option String
deriving Repr, DecidableEq

/-- Payload of `delete`: only the slug is read. -/
structure SlugData where
  slug : String
deriving Repr, DecidableEq

/-- Payload of `join`, `leave`, `grant`, `rescind`: a slug and a target
member identifier. -/
structure MemberData where
  slug : String
  uid : Int
deriving Repr, DecidableEq

/-- An observable call to a collaborator that changes state or emits a
record: group-directory mutations, ownership mutations, audit-log records
(`events.log` via `logGroupEvent`), and notification creation/push. -/
inductive Effect where
  | groupsCreate (record : CreateRecord)
  | groupsUpdate (groupName : String)
  | groupsDestroy (groupName : String)
  | groupsJoin (groupName : String) (uid : Int)
  | groupsRequestMembership (groupName : String) (uid : Int)
  | groupsLeave (groupName : String) (uid : Int)
  | ownershipGrant (uid : Int) (groupName : String)
  | ownershipRescind (uid : Int) (groupName : String)
  | logEvent (tag : String) (callerUid : Int) (ip : String)
      (groupName : String) (targetUid : Option Int)
  | notifCreate (nid : String) (fromUid : Int)
  | notifPush (nid : String) (recipients : List Int)
deriving Repr, DecidableEq

/-- Typed errors thrown by the module, plus `sinkFailure` for a rejected
collaborator call (a failing notification sink) that is not one of the
module's own `[[error:...]]` values. -/
inductive GErr where
  | invalidData
  | invalidGroupName
  | invalidUid
  | noGroup
  | noPrivileges
  | notAllowed
  | groupJoinDisabled
  | groupLeaveDisabled
  | cantRemoveSelfAsAdmin
  | sinkFailure (which : String)
deriving Repr, DecidableEq

/-- Whether an error is one of the module's own typed `[[error:...]]`
failures (everything except a collaborator `sinkFailure`). -/
def GErr.isTyped : GErr → Bool
  | .sinkFailure _ => false
  | _ => true

/-- Whether an effect mutates state (group or ownership mutation), as
opposed to an audit-log record or a notification call. -/
def Effect.isMutation : Effect → Bool
  | .groupsCreate _ => true
  | .groupsUpdate _ => true
  | .groupsDestroy _ => true
  | .groupsJoin _ _ => true
  | .groupsRequestMembership _ _ => true
  | .groupsLeave _ _ => true
  | .ownershipGrant _ _ => true
  | .ownershipRescind _ _ => true
  | _ => false

/-- Number of state mutations in an effect trace. -/
def mutationCount (trace : List Effect) : Nat :=
  trace.countP Effect.isMutation

/-- The external collaborators the module calls, as pure read functions
plus the flags and sets it consults.  `notifCreateOk` models whether the
`notifications.create` call resolves or rejects. -/
structure Env where
  adminCanGroups : Int → Bool
  globalCanCreate : Int → Bool
  isGlobalModerator : Int → Bool
  isAdministrator : Int → Bool
  ownershipIsOwner : Int → String → Bool
  getGroupData : String → GroupDataObject
  getGroupNameByGroupSlug : String → Option String
  userExists : Int → Bool
  isMember : Int → String → Bool
  systemGroups : List String
  ephemeralGroups : List String
  isPrivilegeGroup : String → Bool
  allowPrivateGroups : Bool
  getOwners : String → List Int
  escape : String → String
  notifCreateOk : Bool

/-- The shared `isOwner` authorization gate: a non-string group name fails
`invalid-group-name`; otherwise access is granted when the caller is a
recorded owner, holds the `admin:groups` capability, or is a global
moderator and the group is not a system group; otherwise `no-privileges`. -/
def isOwner (env : Env) (caller : Caller) (groupName : Option String) :
    Except GErr Unit :=
  match groupName with
  | none => .error .invalidGroupName
  | some g =>
    let hasAdminPrivilege := env.adminCanGroups caller.uid
    let isGlobalModerator := env.isGlobalModerator caller.uid
    let ownerRec := env.ownershipIsOwner caller.uid g
    let group := env.getGroupData g
    if ownerRec || hasAdminPrivilege || (isGlobalModerator && !group.system) then
      .ok ()
    else
      .error .noPrivileges

/-- The `create` operation: validates caller and payload, forces
`ownerUid := caller.uid` and `system := false`, creates the group and
emits a `group-create` audit record, returning the created record. -/
def create (env : Env) (caller : Caller) (data : Option CreateData) :
    List Effect × Except GErr CreateRecord :=
  if caller.uid = 0 then ([], .error .noPrivileges)
  else
    match data with
    | none => ([], .error .invalidData)
    | some d =>
      match d.name with
      | none => ([], .error .invalidGroupName)
      | some n =>
        if env.isPrivilegeGroup n then ([], .error .invalidGroupName)
        else if !env.globalCanCreate caller.uid then ([], .error .noPrivileges)
        else
          let record : CreateRecord :=
            { name := n, ownerUid := caller.uid, system := false }
          ([.groupsCreate record,
            .logEvent "group-create" caller.uid caller.ip n none],
           .ok record)

/-- The `update` operation: resolves the slug, runs the `isOwner` gate,
applies the field merge and returns the refreshed record looked up by the
new name when one was supplied (the empty string and a missing name keep
the resolved name). -/
def update (env : Env) (caller : Caller) (data : Option UpdateData) :
    List Effect × Except GErr GroupDataObject :=
  match data with
  | none => ([], .error .invalidData)
  | some d =>
    match env.getGroupNameByGroupSlug d.slug with
    | none => ([], .error .invalidGroupName)
    | some g =>
      match isOwner env caller (some g) with
      | .error e => ([], .error e)
      | .ok _ =>
        let newName :=
          match d.name with
          | some n => if n.isEmpty then g else n
          | none => g
        ([.groupsUpdate g], .ok (env.getGroupData newName))

/-- The `delete` operation (`_delete` in the source): resolves the slug,
runs the `isOwner` gate, rejects system and ephemeral groups with
`not-allowed`, otherwise destroys the group and emits a `group-delete`
audit record. -/
def _delete (env : Env) (caller : Caller) (data : SlugData) :
    List Effect × Except GErr Unit :=
  match env.getGroupNameByGroupSlug data.slug with
  | none => ([], .error .invalidGroupName)
  | some g =>
    match isOwner env caller (some g) with
    | .error e => ([], .error e)
    | .ok _ =>
      if env.systemGroups.contains g || env.ephemeralGroups.contains g then
        ([], .error .notAllowed)
      else
        ([.groupsDestroy g,
          .logEvent "group-delete" caller.uid caller.ip g none],
         .ok ())

/-- The `join` operation: validation (payload, uids, slug resolution,
system/privilege-group guard, target existence) followed by the ordered
decision chain over `allowPrivateGroups`, `isSelf`, admin, owner,
`private` and `disableJoinRequests`. -/
def join (env : Env) (caller : Caller) (data : Option MemberData) :
    List Effect × Except GErr Unit :=
  match data with
  | none => ([], .error .invalidData)
  | some d =>
    if caller.uid ≤ 0 ∨ d.uid = 0 then ([], .error .invalidUid)
    else
      match env.getGroupNameByGroupSlug d.slug with
      | none => ([], .error .noGroup)
      | some g =>
        if g.isEmpty then ([], .error .noGroup)
        else
          let isCallerAdmin := env.isAdministrator caller.uid
          if !isCallerAdmin &&
              (env.systemGroups.contains g || env.isPrivilegeGroup g) then
            ([], .error .notAllowed)
          else
            let groupData := env.getGroupData g
            let isCallerOwner := env.ownershipIsOwner caller.uid g
            let userExists := env.userExists d.uid
            if !userExists then ([], .error .invalidUid)
            else
              let isSelf := caller.uid == d.uid
              if !env.allowPrivateGroups && isSelf then
                ([.groupsJoin g d.uid,
                  .logEvent "group-join" caller.uid caller.ip g (some d.uid)],
                 .ok ())
              else if !isCallerAdmin && isSelf && groupData.isPrivate &&
                  groupData.disableJoinRequests then
                ([], .error .groupJoinDisabled)
              else if (!groupData.isPrivate && isSelf) || isCallerAdmin ||
                  isCallerOwner then
                ([.groupsJoin g d.uid,
                  .logEvent "group-join" caller.uid caller.ip g (some d.uid)],
                 .ok ())
              else if isSelf then
                ([.groupsRequestMembership g caller.uid,
                  .logEvent "group-request-membership" caller.uid caller.ip g
                    (some d.uid)],
                 .ok ())
              else ([], .ok ())

/-- The `leave` operation: validation, the `administrators` self-removal
guard, the idempotent non-member no-op, the `disableLeave` guard and the
authorization check; on success the membership mutation is followed by
notification creation, a push to the owner set and a `group-leave` audit
record. -/
def leave (env : Env) (caller : Caller) (data : Option MemberData) :
    List Effect × Except GErr Unit :=
  match data with
  | none => ([], .error .invalidData)
  | some d =>
    if caller.uid ≤ 0 then ([], .error .invalidUid)
    else
      let isSelf := caller.uid == d.uid
      match env.getGroupNameByGroupSlug d.slug with
      | none => ([], .error .noGroup)
      | some g =>
        if g.isEmpty then ([], .error .noGroup)
        else if g == "administrators" && isSelf then
          ([], .error .cantRemoveSelfAsAdmin)
        else
          let groupData := env.getGroupData g
          let isCallerAdmin := env.isAdministrator caller.uid
          let isCallerOwner := env.ownershipIsOwner caller.uid g
          let userExists := env.userExists d.uid
          let isMember := env.isMember d.uid g
          if !userExists then ([], .error .invalidUid)
          else if !isMember then ([], .ok ())
          else if groupData.disableLeave && isSelf then
            ([], .error .groupLeaveDisabled)
          else if isSelf || isCallerAdmin || isCallerOwner then
            let nid := "group:" ++ env.escape g ++ ":uid:" ++ toString d.uid ++
              ":group-leave"
            if env.notifCreateOk then
              ([.groupsLeave g d.uid,
                .notifCreate nid d.uid,
                .notifPush nid (env.getOwners g),
                .logEvent "group-leave" caller.uid caller.ip g (some d.uid)],
               .ok ())
            else
              ([.groupsLeave g d.uid], .error (.sinkFailure "notifications.create"))
          else ([], .error .noPrivileges)

/-- The `grant` operation: resolves the slug, runs the `isOwner` gate,
grants ownership to the target and emits a `group-owner-grant` audit
record; the target identifier itself is never validated. -/
def grant (env : Env) (caller : Caller) (data : MemberData) :
    List Effect × Except GErr Unit :=
  match env.getGroupNameByGroupSlug data.slug with
  | none => ([], .error .invalidGroupName)
  | some g =>
    match isOwner env caller (some g) with
    | .error e => ([], .error e)
    | .ok _ =>
      ([.ownershipGrant data.uid g,
        .logEvent "group-owner-grant" caller.uid caller.ip g (some data.uid)],
       .ok ())

/-- The `rescind` operation: resolves the slug, runs the `isOwner` gate,
rescinds the target's ownership and emits a `group-owner-rescind` audit
record; the target identifier itself is never validated. -/
def rescind (env : Env) (caller : Caller) (data : MemberData) :
    List Effect × Except GErr Unit :=
  match env.getGroupNameByGroupSlug data.slug with
  | none => ([], .error .invalidGroupName)
  | some g =>
    match isOwner env caller (some g) with
    | .error e => ([], .error e)
    | .ok _ =>
      ([.ownershipRescind data.uid g,
        .logEvent "group-owner-rescind" caller.uid caller.ip g (some data.uid)],
       .ok ())

/-- Classification of a `join` result into the four outcome categories of
the decision table: direct join with audit, pending membership request
with audit, silent no-op, or the `group-join-disabled` denial. -/
inductive JoinClass where
  | directJoin
  | pendingRequest
  | noOp
  | denial
deriving Repr, DecidableEq

/-- Classifier for `join` results: returns `none` when the result fits
none of the four decision-table outcomes. -/
def joinClass : List Effect × Except GErr Unit → Option JoinClass
  | ([.groupsJoin _ _, .logEvent "group-join" _ _ _ _], .ok ()) =>
      some .directJoin
  | ([.groupsRequestMembership _ _,
      .logEvent "group-request-membership" _ _ _ _], .ok ()) =>
      some .pendingRequest
  | ([], .ok ()) => some .noOp
  | ([], .error .groupJoinDisabled) => some .denial
  | _ => none

/-- The five-rule decision table of `join`, evaluated top-down with the
first match winning, as a total function of the six booleans. -/
def joinTable (isSelf isCallerAdmin isCallerOwner isPrivate
    disableJoinRequests allowPrivateGroups : Bool) : JoinClass :=
  if !allowPrivateGroups && isSelf then .directJoin
  else if !isCallerAdmin && isSelf && isPrivate && disableJoinRequests then
    .denial
  else if (!isPrivate && isSelf) || isCallerAdmin || isCallerOwner then
    .directJoin
  else if isSelf then .pendingRequest
  else .noOp

/-- Modelled from the spec: `GroupDirectory.leave` removes the member, so
after a completed leave the environment reports `isMember = false` for
that member and group (the group store itself lives outside this module). -/
def removeMember (env : Env) (g : String) (uid : Int) : Env :=
  { env with isMember := fun u n => if u = uid ∧ n = g then false else env.isMember u n }

/-- Modelled from the spec: `GroupDirectory.create` stores the record it
receives and a later `getConfig` of that name returns the stored record,
in particular its `system` flag (`groups.create` and the store live
outside this module). -/
def envAfterCreate (env : Env) (record : CreateRecord) : Env :=
  { env with getGroupData := fun n =>
      if n = record.name then
        { system := record.system
          isPrivate := (env.getGroupData n).isPrivate
          disableJoinRequests := (env.getGroupData n).disableJoinRequests
          disableLeave := (env.getGroupData n).disableLeave }
      else env.getGroupData n }

/-- An environment in which every query answers false / empty, every slug
resolves to itself, and the notification sink succeeds. -/
def baseEnv : Env where
  adminCanGroups _ := false
  globalCanCreate _ := false
  isGlobalModerator _ := false
  isAdministrator _ := false
  ownershipIsOwner _ _ := false
  getGroupData _ := ⟨false, false, false, false⟩
  getGroupNameByGroupSlug s := some s
  userExists _ := false
  isMember _ _ := false
  systemGroups := []
  ephemeralGroups := []
  isPrivilegeGroup _ := false
  allowPrivateGroups := true
  getOwners _ := []
  escape s := s
  notifCreateOk := true

/-- C1: the shared `isOwner` gate grants access iff the caller is a
recorded owner of the group, or holds the admin-groups capability, or is
a global moderator and the group is not a system group; when all three
disjuncts fail it raises `no-privileges`, and a non-string group name
raises `invalid-group-name`. -/
theorem c1_isOwner_gate (env : Env) (caller : Caller) (g : String) :
    (isOwner env caller (some g) = .ok () ↔
      (env.ownershipIsOwner caller.uid g = true ∨
       env.adminCanGroups caller.uid = true ∨
       (env.isGlobalModerator caller.uid = true ∧
        (env.getGroupData g).system = false))) ∧
    (isOwner env caller (some g) = .error .noPrivileges ↔
      ¬(env.ownershipIsOwner caller.uid g = true ∨
        env.adminCanGroups caller.uid = true ∨
        (env.isGlobalModerator caller.uid = true ∧
         (env.getGroupData g).system = false))) ∧
    isOwner env caller (some g) ≠ .error .invalidGroupName ∧
    isOwner env caller none = .error .invalidGroupName := by
  unfold isOwner
  cases ho : env.ownershipIsOwner caller.uid g <;>
    cases ha : env.adminCanGroups caller.uid <;>
      cases hm : env.isGlobalModerator caller.uid <;>
        cases hs : (env.getGroupData g).system <;>
          simp [ho, ha, hm, hs]

/-- Witness for C1 at a concrete environment and caller. -/
theorem c1_isOwner_gate_witness :
    isOwner baseEnv ⟨3, "ip"⟩ (some "team") = .error .noPrivileges :=
  (c1_isOwner_gate baseEnv ⟨3, "ip"⟩ "team").2.1.mpr (by decide)

/-- C2: after the validation steps of `join` pass (payload present,
positive caller uid, truthy target uid, resolvable slug, the
system/privilege-group guard passed, target exists), the result is
classified by the five-rule decision table evaluated top-down with first
match winning, as a total function of the six booleans — so exactly one
of direct-join with audit, pending request with audit, silent no-op, or
the `group-join-disabled` denial results. -/
theorem c2_join_decision_table (env : Env) (c : Caller) (d : MemberData)
    (g : String)
    (hres : env.getGroupNameByGroupSlug d.slug = some g)
    (hg : g.isEmpty = false)
    (hcu : 0 < c.uid) (hdu : d.uid ≠ 0)
    (hguard : env.isAdministrator c.uid = true ∨
      (env.systemGroups.contains g = false ∧ env.isPrivilegeGroup g = false))
    (hex : env.userExists d.uid = true) :
    joinClass (join env c (some d)) =
      some (joinTable (c.uid == d.uid) (env.isAdministrator c.uid)
        (env.ownershipIsOwner c.uid g) (env.getGroupData g).isPrivate
        (env.getGroupData g).disableJoinRequests env.allowPrivateGroups) := by
  have hcond : ¬(c.uid ≤ 0 ∨ d.uid = 0) := by
    push_neg
    exact ⟨by omega, hdu⟩
  simp only [join, hres, if_neg hcond]
  cases hA : env.isAdministrator c.uid <;>
    cases hS : c.uid == d.uid <;>
      cases hO : env.ownershipIsOwner c.uid g <;>
        cases hP : (env.getGroupData g).isPrivate <;>
          cases hJ : (env.getGroupData g).disableJoinRequests <;>
            cases hL : env.allowPrivateGroups <;>
              simp_all [joinClass, joinTable, hg]

/-- Witness for C2 at a concrete environment: a private group with join
requests disabled and a non-admin self-join, which lands in the denial
row of the table. -/
theorem c2_join_decision_table_witness :
    joinClass (join
      { baseEnv with
          getGroupData := fun _ => ⟨false, true, true, false⟩,
          userExists := fun u => u = 42 }
      ⟨42, "ip"⟩ (some ⟨"secret", 42⟩)) =
      some (joinTable true false false true true true) :=
  c2_join_decision_table
    { baseEnv with
        getGroupData := fun _ => ⟨false, true, true, false⟩,
        userExists := fun u => u = 42 }
    ⟨42, "ip"⟩ ⟨"secret", 42⟩ "secret" rfl (by decide) (by decide) (by decide)
    (Or.inr (by decide)) (by decide)

/-- C3: when the platform configuration disables private groups and the
caller is acting on themself, `join` (past its validation steps) performs
an unconditional direct join with a `group-join` audit record and
returns, whatever the group's `private` and `disableJoinRequests` flags
and the caller's admin and owner standing are. -/
theorem c3_join_public_override (env : Env) (c : Caller) (d : MemberData)
    (g : String)
    (hres : env.getGroupNameByGroupSlug d.slug = some g)
    (hg : g.isEmpty = false)
    (hcu : 0 < c.uid) (hdu : d.uid ≠ 0)
    (hguard : env.isAdministrator c.uid = true ∨
      (env.systemGroups.contains g = false ∧ env.isPrivilegeGroup g = false))
    (hex : env.userExists d.uid = true)
    (hpub : env.allowPrivateGroups = false)
    (hself : c.uid = d.uid) :
    join env c (some d) =
      ([.groupsJoin g d.uid,
        .logEvent "group-join" c.uid c.ip g (some d.uid)], .ok ()) := by
  have hcond : ¬(c.uid ≤ 0 ∨ d.uid = 0) := by
    push_neg
    exact ⟨by omega, hdu⟩
  simp only [join, hres, if_neg hcond]
  cases hA : env.isAdministrator c.uid <;>
    simp_all [hg, hpub, hself]

/-- Witness for C3: a private group with join requests disabled, a
non-admin non-owner caller, still joined directly because the platform
disables private groups. -/
theorem c3_join_public_override_witness :
    join
      { baseEnv with
          allowPrivateGroups := false,
          getGroupData := fun _ => ⟨false, true, true, false⟩,
          userExists := fun u => u = 42 }
      ⟨42, "ip"⟩ (some ⟨"secret", 42⟩) =
      ([.groupsJoin "secret" 42,
        .logEvent "group-join" 42 "ip" "secret" (some 42)], .ok ()) :=
  c3_join_public_override
    { baseEnv with
        allowPrivateGroups := false,
        getGroupData := fun _ => ⟨false, true, true, false⟩,
        userExists := fun u => u = 42 }
    ⟨42, "ip"⟩ ⟨"secret", 42⟩ "secret" rfl (by decide) (by decide) (by decide)
    (Or.inr (by decide)) (by decide) rfl rfl

/-- C4 counterexample: `delete` on the system group `administrators` by a
caller with no ownership, no admin capability and no moderator role fails
with `no-privileges` from the `isOwner` gate, not with `not-allowed` as
the claim states for every caller. -/
theorem c4_delete_counterexample :
    _delete { baseEnv with systemGroups := ["administrators"] }
      ⟨5, "ip"⟩ ⟨"administrators"⟩ = ([], .error .noPrivileges) ∧
    GErr.noPrivileges ≠ GErr.notAllowed := by
  constructor
  · rfl
  · decide

/-- C4 (amended): `delete` on a group whose resolved name is in the
system-group set or the ephemeral-group set never destroys the group and
always fails — with `not-allowed` whenever the caller passes the
`isOwner` gate (in particular for an owner or an admin), and with the
gate's `no-privileges` otherwise. -/
theorem c4_delete_protected_groups (env : Env) (c : Caller) (d : SlugData)
    (g : String)
    (hres : env.getGroupNameByGroupSlug d.slug = some g)
    (hsys : env.systemGroups.contains g = true ∨
      env.ephemeralGroups.contains g = true) :
    ((_delete env c d = ([], .error .notAllowed) ∨
      _delete env c d = ([], .error .noPrivileges)) ∧
     (isOwner env c (some g) = .ok () →
      _delete env c d = ([], .error .notAllowed))) := by
  have hsys2 : (env.systemGroups.contains g || env.ephemeralGroups.contains g)
      = true := by
    rw [Bool.or_eq_true]
    exact hsys
  simp only [_delete, hres]
  cases hgate : isOwner env c (some g) with
  | error e =>
    have he : e = GErr.noPrivileges := by
      simp only [isOwner] at hgate
      split at hgate
      · exact absurd hgate (by simp)
      · exact (Except.error.inj hgate).symm
    subst he
    exact ⟨Or.inr rfl, fun hok => absurd hok (by simp)⟩
  | ok u =>
    cases u
    have hfin : g ∉ env.systemGroups → g ∈ env.ephemeralGroups := by
      intro hn
      rcases hsys with h | h
      · exact absurd (by simpa using h) hn
      · simpa using h
    refine ⟨Or.inl ?_, fun _ => ?_⟩ <;> simp [hsys2] <;> exact hfin

/-- Witness for C4 at a concrete input: the owner of `administrators`
still cannot delete it; the failure is `not-allowed`. -/
theorem c4_delete_protected_groups_witness :
    _delete
      { baseEnv with
          systemGroups := ["administrators"],
          ownershipIsOwner := fun u _ => u = 7 }
      ⟨7, "ip"⟩ ⟨"administrators"⟩ = ([], .error .notAllowed) :=
  (c4_delete_protected_groups
    { baseEnv with
        systemGroups := ["administrators"],
        ownershipIsOwner := fun u _ => u = 7 }
    ⟨7, "ip"⟩ ⟨"administrators"⟩ "administrators" rfl
    (Or.inl (by decide))).2 rfl

/-- Mutation discipline of one call result: at most one state mutation in
the trace, and a failure with one of the module's typed errors leaves an
empty trace (no mutation, no audit). -/
def mutationDiscipline {α : Type} (r : List Effect × Except GErr α) : Prop :=
  mutationCount r.1 ≤ 1 ∧
  ∀ e, r.2 = .error e → GErr.isTyped e = true → r.1 = []

/-- C5 counterexample: a successful `join` call that performs no state
mutation at all — the caller is neither the target nor admin nor owner,
so `join` silently no-ops — refuting that every successful call performs
its single state mutation exactly once. -/
theorem c5_counterexample :
    join { baseEnv with userExists := fun u => u = 9 }
      ⟨5, "ip"⟩ (some ⟨"team", 9⟩) = ([], .ok ()) ∧
    mutationCount [] = 0 := by
  constructor
  · rfl
  · rfl

set_option maxHeartbeats 2000000 in
/-- C5 (amended): for each of the seven operations, every call performs
at most one state mutation, and a call that fails with one of the
module's typed errors has performed no mutation at all (fail-fast);
successful no-op paths (the silent `join` no-op, the idempotent `leave`
no-op) perform zero mutations. -/
theorem c5_mutation_discipline :
    (∀ (env : Env) (c : Caller) (d : Option CreateData),
      mutationDiscipline (create env c d)) ∧
    (∀ (env : Env) (c : Caller) (d : Option UpdateData),
      mutationDiscipline (update env c d)) ∧
    (∀ (env : Env) (c : Caller) (d : SlugData),
      mutationDiscipline (_delete env c d)) ∧
    (∀ (env : Env) (c : Caller) (d : Option MemberData),
      mutationDiscipline (join env c d)) ∧
    (∀ (env : Env) (c : Caller) (d : Option MemberData),
      mutationDiscipline (leave env c d)) ∧
    (∀ (env : Env) (c : Caller) (d : MemberData),
      mutationDiscipline (grant env c d)) ∧
    (∀ (env : Env) (c : Caller) (d : MemberData),
      mutationDiscipline (rescind env c d)) := by
  refine ⟨?_, ?_, ?_, ?_, ?_, ?_, ?_⟩ <;>
    intro env c d
  · unfold mutationDiscipline
    simp only [create]
    repeat' split
    all_goals refine ⟨?_, ?_⟩
    all_goals simp [mutationCount, List.countP, List.countP.go,
      Effect.isMutation, GErr.isTyped]
  · unfold mutationDiscipline
    simp only [update]
    repeat' split
    all_goals refine ⟨?_, ?_⟩
    all_goals simp [mutationCount, List.countP, List.countP.go,
      Effect.isMutation, GErr.isTyped]
  · unfold mutationDiscipline
    simp only [_delete]
    repeat' split
    all_goals refine ⟨?_, ?_⟩
    all_goals simp [mutationCount, List.countP, List.countP.go,
      Effect.isMutation, GErr.isTyped]
  · unfold mutationDiscipline
    simp only [join]
    repeat' split
    all_goals refine ⟨?_, ?_⟩
    all_goals simp [mutationCount, List.countP, List.countP.go,
      Effect.isMutation, GErr.isTyped]
  · unfold mutationDiscipline
    simp only [leave]
    repeat' split
    all_goals refine ⟨?_, ?_⟩
    all_goals simp [mutationCount, List.countP, List.countP.go,
      Effect.isMutation, GErr.isTyped]
  · unfold mutationDiscipline
    simp only [grant]
    repeat' split
    all_goals refine ⟨?_, ?_⟩
    all_goals simp [mutationCount, List.countP, List.countP.go,
      Effect.isMutation, GErr.isTyped]
  · unfold mutationDiscipline
    simp only [rescind]
    repeat' split
    all_goals refine ⟨?_, ?_⟩
    all_goals simp [mutationCount, List.countP, List.countP.go,
      Effect.isMutation, GErr.isTyped]

/-- Witness for C5 at a concrete call: a failing `create` (caller lacks
the `group:create` capability) has an empty trace. -/
theorem c5_mutation_discipline_witness :
    (create baseEnv ⟨3, "ip"⟩
      (some { name := some "team", ownerUid := 9, system := true })).1 = [] :=
  (c5_mutation_discipline.1 baseEnv ⟨3, "ip"⟩
      (some { name := some "team", ownerUid := 9, system := true })).2
    .noPrivileges rfl rfl

/-- C6: for every caller acting on themself, `leave` on the group named
`administrators` fails with `cant-remove-self-as-admin`, whatever the
caller's admin status and the group's membership are (the guard runs
before any group data, membership or role lookup is consulted). -/
theorem c6_leave_administrators_self (env : Env) (c : Caller)
    (d : MemberData)
    (hcu : 0 < c.uid)
    (hself : c.uid = d.uid)
    (hres : env.getGroupNameByGroupSlug d.slug = some "administrators") :
    leave env c (some d) = ([], .error .cantRemoveSelfAsAdmin) := by
  have hcond : ¬(c.uid ≤ 0) := by omega
  have hcond2 : ¬(d.uid ≤ 0) := by omega
  have hne : "administrators".isEmpty = false := by decide
  simp [leave, hres, hcond, hcond2, hself, hne]

/-- Witness for C6: an administrator who is the last member still cannot
remove themself from `administrators`. -/
theorem c6_leave_administrators_self_witness :
    leave
      { baseEnv with
          isAdministrator := fun u => u = 11,
          userExists := fun u => u = 11,
          isMember := fun u g => u = 11 ∧ g = "administrators" }
      ⟨11, "ip"⟩ (some ⟨"administrators", 11⟩) =
      ([], .error .cantRemoveSelfAsAdmin) :=
  c6_leave_administrators_self
    { baseEnv with
        isAdministrator := fun u => u = 11,
        userExists := fun u => u = 11,
        isMember := fun u g => u = 11 ∧ g = "administrators" }
    ⟨11, "ip"⟩ ⟨"administrators", 11⟩ (by decide) rfl rfl

/-- C7: `leave` is idempotent — when the target user exists but is not a
member of the resolved group, `leave` returns successfully with no
mutation, no audit record and no notification; consequently, after a
leave has removed the membership, a second `leave` of the same group is
such a no-op. -/
theorem c7_leave_idempotent :
    (∀ (env : Env) (c : Caller) (d : MemberData) (g : String),
      env.getGroupNameByGroupSlug d.slug = some g →
      g.isEmpty = false →
      0 < c.uid →
      ¬(g = "administrators" ∧ c.uid = d.uid) →
      env.userExists d.uid = true →
      env.isMember d.uid g = false →
      leave env c (some d) = ([], .ok ())) ∧
    (∀ (env : Env) (c : Caller) (d : MemberData) (g : String),
      env.getGroupNameByGroupSlug d.slug = some g →
      g.isEmpty = false →
      0 < c.uid →
      ¬(g = "administrators" ∧ c.uid = d.uid) →
      env.userExists d.uid = true →
      leave (removeMember env g d.uid) c (some d) = ([], .ok ())) := by
  have main : ∀ (env : Env) (c : Caller) (d : MemberData) (g : String),
      env.getGroupNameByGroupSlug d.slug = some g →
      g.isEmpty = false →
      0 < c.uid →
      ¬(g = "administrators" ∧ c.uid = d.uid) →
      env.userExists d.uid = true →
      env.isMember d.uid g = false →
      leave env c (some d) = ([], .ok ()) := by
    intro env c d g hres hg hcu hadm hex hmem
    have hcond : ¬(c.uid ≤ 0) := by omega
    have hguard : (g == "administrators" && c.uid == d.uid) = false := by
      by_cases hb : g = "administrators"
      · have hcd : ¬(c.uid = d.uid) := fun hc => hadm ⟨hb, hc⟩
        simp [hb, hcd]
      · simp [hb]
    simp [leave, hres, hcond, hguard, hg, hex, hmem]
  refine ⟨main, ?_⟩
  intro env c d g hres hg hcu hadm hex
  exact main (removeMember env g d.uid) c d g hres hg hcu hadm hex
    (by simp [removeMember])

/-- Witness for C7: the owner of `team` leaves on behalf of existing
non-member 99 — a successful no-op with an empty trace. -/
theorem c7_leave_idempotent_witness :
    leave
      { baseEnv with
          ownershipIsOwner := fun u _ => u = 7,
          userExists := fun u => u = 99 }
      ⟨7, "ip"⟩ (some ⟨"team", 99⟩) = ([], .ok ()) :=
  c7_leave_idempotent.1
    { baseEnv with
        ownershipIsOwner := fun u _ => u = 7,
        userExists := fun u => u = 99 }
    ⟨7, "ip"⟩ ⟨"team", 99⟩ "team" rfl (by decide) (by decide) (by decide)
    (by decide) rfl

/-- C8: a successful `create` stores a record with `system = false` and
`ownerUid` equal to the caller's identifier, whatever `system` and
`ownerUid` values the caller supplied, returns that record, emits a
`group-create` audit record, and a subsequent configuration lookup of
the group reports the forced `system` flag. -/
theorem c8_create_forces_fields (env : Env) (c : Caller) (d : CreateData)
    (n : String)
    (hname : d.name = some n)
    (hcu : c.uid ≠ 0)
    (hpriv : env.isPrivilegeGroup n = false)
    (hcan : env.globalCanCreate c.uid = true) :
    create env c (some d) =
      ([.groupsCreate ⟨n, c.uid, false⟩,
        .logEvent "group-create" c.uid c.ip n none],
       .ok ⟨n, c.uid, false⟩) ∧
    ((envAfterCreate env ⟨n, c.uid, false⟩).getGroupData n).system = false := by
  constructor
  · simp [create, hcu, hname, hpriv, hcan]
  · simp [envAfterCreate]

/-- Witness for C8: the caller supplied `system = true` and a foreign
`ownerUid`; the stored record still has `system = false` and the
caller's uid. -/
theorem c8_create_forces_fields_witness :
    create { baseEnv with globalCanCreate := fun u => u = 3 } ⟨3, "ip"⟩
      (some { name := some "book-club", ownerUid := 999, system := true }) =
      ([.groupsCreate ⟨"book-club", 3, false⟩,
        .logEvent "group-create" 3 "ip" "book-club" none],
       .ok ⟨"book-club", 3, false⟩) :=
  (c8_create_forces_fields { baseEnv with globalCanCreate := fun u => u = 3 }
    ⟨3, "ip"⟩ { name := some "book-club", ownerUid := 999, system := true }
    "book-club" rfl (by decide) rfl (by decide)).1

/-- C9 counterexample: in `leave`, when the notification sink rejects
after the membership mutation has been performed, the call fails instead
of completing successfully — the failure is escalated to the caller even
though the mutation is already in the trace. -/
theorem c9_counterexample :
    leave
      { baseEnv with
          userExists := fun u => u = 7,
          isMember := fun u g => u = 7 ∧ g = "team",
          notifCreateOk := false }
      ⟨7, "ip"⟩ (some ⟨"team", 7⟩) =
      ([.groupsLeave "team" 7], .error (.sinkFailure "notifications.create")) ∧
    Effect.isMutation (.groupsLeave "team" 7) = true := by
  constructor
  · rfl
  · rfl

/-- C9 (amended): in `leave`, notification creation, the push to the
owner set and the `group-leave` audit record all happen after the
membership mutation, and a failure of the notification sink does not
undo the mutation (it remains in the trace); the failure is however
escalated to the caller: the call fails with the collaborator's error
instead of completing successfully. -/
theorem c9_sink_failure_escalates (env : Env) (c : Caller) (d : MemberData)
    (g : String)
    (hres : env.getGroupNameByGroupSlug d.slug = some g)
    (hg : g.isEmpty = false)
    (hcu : 0 < c.uid)
    (hadm : ¬(g = "administrators" ∧ c.uid = d.uid))
    (hex : env.userExists d.uid = true)
    (hmem : env.isMember d.uid g = true)
    (hdl : ¬((env.getGroupData g).disableLeave = true ∧ c.uid = d.uid))
    (hauth : c.uid = d.uid ∨ env.isAdministrator c.uid = true ∨
      env.ownershipIsOwner c.uid g = true)
    (hsink : env.notifCreateOk = false) :
    leave env c (some d) =
      ([.groupsLeave g d.uid], .error (.sinkFailure "notifications.create")) := by
  have hcond : ¬(c.uid ≤ 0) := by omega
  have hguardAdm : (g == "administrators" && c.uid == d.uid) = false := by
    by_cases hb : g = "administrators"
    · have hcd : ¬(c.uid = d.uid) := fun hc => hadm ⟨hb, hc⟩
      simp [hb, hcd]
    · simp [hb]
  have hguardDL : ((env.getGroupData g).disableLeave && c.uid == d.uid) = false := by
    by_cases hb : (env.getGroupData g).disableLeave = true
    · have hcd : ¬(c.uid = d.uid) := fun hc => hdl ⟨hb, hc⟩
      simp [hb, hcd]
    · simp [Bool.eq_false_iff.mpr hb]
  have hauthB : (c.uid == d.uid || env.isAdministrator c.uid ||
      env.ownershipIsOwner c.uid g) = true := by
    rcases hauth with h | h | h <;> simp [h]
  simp [leave, hres, hcond, hguardAdm, hguardDL, hauthB, hg, hex, hmem, hsink]

/-- Witness for C9 at a concrete call: group owner 7 removes member 9
while the notification sink rejects; the membership mutation stands but
the call fails. -/
theorem c9_sink_failure_escalates_witness :
    leave
      { baseEnv with
          ownershipIsOwner := fun u _ => u = 7,
          userExists := fun u => u = 9,
          isMember := fun u g => u = 9 ∧ g = "team",
          notifCreateOk := false }
      ⟨7, "ip"⟩ (some ⟨"team", 9⟩) =
      ([.groupsLeave "team" 9], .error (.sinkFailure "notifications.create")) :=
  c9_sink_failure_escalates
    { baseEnv with
        ownershipIsOwner := fun u _ => u = 7,
        userExists := fun u => u = 9,
        isMember := fun u g => u = 9 ∧ g = "team",
        notifCreateOk := false }
    ⟨7, "ip"⟩ ⟨"team", 9⟩ "team" rfl (by decide) (by decide) (by decide)
    (by decide) (by decide) (by decide) (Or.inr (Or.inr (by decide))) rfl

/-- Helper: the `isOwner` gate only ever fails with `invalid-group-name`
or `no-privileges`. -/
theorem isOwner_error_cases (env : Env) (c : Caller) (gn : Option String)
    (e : GErr) (h : isOwner env c gn = .error e) :
    e = .invalidGroupName ∨ e = .noPrivileges := by
  cases gn with
  | none =>
    simp only [isOwner] at h
    exact Or.inl (Except.error.inj h).symm
  | some g =>
    simp only [isOwner] at h
    split at h
    · exact absurd h (by simp)
    · exact Or.inr (Except.error.inj h).symm

/-- C10: `grant` and `rescind` never validate the target identifier —
whenever the slug resolves and the caller passes the `isOwner` gate, the
ownership mutation and its audit record are performed whatever the
target is (nonexistent, non-member, or the caller themself), and neither
operation can ever fail with `invalid-uid` or `invalid-data`. -/
theorem c10_grant_rescind_no_target_validation :
    (∀ (env : Env) (c : Caller) (d : MemberData) (g : String),
      env.getGroupNameByGroupSlug d.slug = some g →
      isOwner env c (some g) = .ok () →
      grant env c d =
        ([.ownershipGrant d.uid g,
          .logEvent "group-owner-grant" c.uid c.ip g (some d.uid)], .ok ()) ∧
      rescind env c d =
        ([.ownershipRescind d.uid g,
          .logEvent "group-owner-rescind" c.uid c.ip g (some d.uid)], .ok ())) ∧
    (∀ (env : Env) (c : Caller) (d : MemberData) (e : GErr),
      ((grant env c d).2 = .error e ∨ (rescind env c d).2 = .error e) →
      e ≠ .invalidUid ∧ e ≠ .invalidData) := by
  constructor
  · intro env c d g hres hgate
    constructor <;> simp [grant, rescind, hres, hgate]
  · intro env c d e he
    have key : e = .invalidGroupName ∨ e = .noPrivileges := by
      rcases he with h | h
      · rcases hr : env.getGroupNameByGroupSlug d.slug with _ | g
        · simp [grant, hr] at h
          exact Or.inl h.symm
        · rcases hgate : isOwner env c (some g) with e2 | u
          · have h2 := isOwner_error_cases env c (some g) e2 hgate
            simp [grant, hr, hgate] at h
            exact h ▸ h2
          · simp [grant, hr, hgate] at h
      · rcases hr : env.getGroupNameByGroupSlug d.slug with _ | g
        · simp [rescind, hr] at h
          exact Or.inl h.symm
        · rcases hgate : isOwner env c (some g) with e2 | u
          · have h2 := isOwner_error_cases env c (some g) e2 hgate
            simp [rescind, hr, hgate] at h
            exact h ▸ h2
          · simp [rescind, hr, hgate] at h
    rcases key with rfl | rfl <;> exact ⟨by decide, by decide⟩

/-- Witness for C10: the owner of `team` grants ownership to themself
even though no user exists at all in this environment. -/
theorem c10_grant_rescind_no_target_validation_witness :
    grant { baseEnv with ownershipIsOwner := fun u _ => u = 7 }
      ⟨7, "ip"⟩ ⟨"team", 7⟩ =
      ([.ownershipGrant 7 "team",
        .logEvent "group-owner-grant" 7 "ip" "team" (some 7)], .ok ()) :=
  (c10_grant_rescind_no_target_validation.1
    { baseEnv with ownershipIsOwner := fun u _ => u = 7 }
    ⟨7, "ip"⟩ ⟨"team", 7⟩ "team" rfl rfl).1

end ApiGroups
